import Mathlib

set_option maxRecDepth 8192

/-!
Verification of the acquisition-and-delivery pipeline of `src/app.py`
(a Telegram bot that downloads a YouTube video with yt-dlp and uploads
it back to the user).

The development shallowly embeds the pure decision logic of the script:

* `pick_best_output_file` — the artifact selector (app.py lines 26-37);
* `run_yt_dlp` — the result shape of the extraction call, including the
  timeout path (app.py lines 40-82);
* the YouTube URL regex `YOUTUBE_RE` (app.py lines 21-23), modelled as an
  executable matcher `regexSearch` whose character classes carry the
  exact Unicode tables of CPython's `re` (`\w` as a codepoint-range
  table, `\s` as its 29-character list, `(?i)` with sre's extra
  case-equivalence s ~ ſ);
* `handle_message` — the session orchestrator (app.py lines 98-200),
  modelled as a pure function from an environment (message data, engine
  result, workspace contents, and the success/failure of each fallible
  messaging call) to the trace of attempted external effects plus a
  terminal outcome.

Filesystem entries are modelled by `Entry` (name, byte size, regular-file
flag).  Messaging calls are recorded in the trace as *attempts*; whether a
given call raises is part of the environment, mirroring the try/except
structure of the source.
-/

/-- A directory entry of the session workspace: its name, its `st_size`,
and whether it is a regular file (yt-dlp may leave sidecar files, and a
directory can in principle match a glob by name). -/
structure Entry where
  name : String
  size : Nat
  isFile : Bool
deriving DecidableEq, Repr

/-- Telegram's hard limit used by the size guard (app.py line 18). -/
def TELEGRAM_MAX_BYTES : Nat := 2000000000

/-- Membership in the glob `*.<ext>` (app.py lines 29 and 32): the name
ends with the literal suffix.  `pathlib.Path.glob` matches on the *name*
only — a directory named `x.mp4` matches too — and, unlike the `glob`
module, it does match dot-prefixed names (verified: `glob("*.mp4")`
yields a file named `.mp4`). -/
def globSuffix (suffix : String) (e : Entry) : Bool :=
  suffix.data.isSuffixOf e.name.data

/-- Sort key used for the `*.mp4` and `*.mkv` globs (app.py lines 29, 32):
`p.stat().st_size if p.exists() else 0`; globbed paths exist, so this is
the raw `st_size` of the entry, file or not. -/
def mp4Key (e : Entry) : Nat := e.size

/-- Sort key used for the fallback glob `*` (app.py line 36):
`p.stat().st_size if p.is_file() else 0` — non-files rank with size 0. -/
def anyKey (e : Entry) : Nat := if e.isFile then e.size else 0

/-- First element of `sorted(xs, key=k, reverse=True)`.  Python's sort is
stable, and with `reverse=True` elements of equal key keep their original
order, so the head of the sorted list is the earliest element attaining
the maximal key. -/
def firstMax (key : Entry → Nat) : List Entry → Option Entry
  | [] => none
  | e :: es =>
    match firstMax key es with
    | none => some e
    | some m => if key e ≥ key m then some e else some m

/-- The artifact selector (app.py lines 26-37): prefer the largest
`*.mp4` glob match, else the largest `*.mkv` glob match, else the entry
of the fallback glob `*` (which matches every entry, dotfiles included)
with the largest `anyKey`; `none` when the workspace is empty. -/
def pick_best_output_file (entries : List Entry) : Option Entry :=
  match firstMax mp4Key (entries.filter (globSuffix ".mp4")) with
  | some e => some e
  | none =>
    match firstMax mp4Key (entries.filter (globSuffix ".mkv")) with
    | some e => some e
    | none => firstMax anyKey entries

-- concrete evaluation checks of the selector
example : pick_best_output_file
    [⟨"a.webm", 10000000, true⟩, ⟨"a.mp4", 8000000, true⟩, ⟨"b.mp4", 12000000, true⟩]
    = some ⟨"b.mp4", 12000000, true⟩ := by decide

example : pick_best_output_file [⟨"x.mp4", 4096, false⟩, ⟨"a.avi", 100000000, true⟩]
    = some ⟨"x.mp4", 4096, false⟩ := by decide

example : pick_best_output_file [⟨".part", 5, true⟩] = some ⟨".part", 5, true⟩ := by decide

example : pick_best_output_file [⟨".big.mp4", 6000000, true⟩, ⟨"a.mp4", 1000000, true⟩]
    = some ⟨".big.mp4", 6000000, true⟩ := by decide

example : pick_best_output_file [] = none := by decide

/-!
The YouTube URL pattern (app.py lines 21-23):

  `(?i)\b(?:https?://)?(?:www\.)?(?:youtube\.com/watch\?v=[\w\-]+|youtu\.be/[\w\-]+)\S*`

searched with `re.search` (leftmost match, greedy quantifiers).  The
pattern is a str pattern without `re.ASCII`, so `\w`, `\S` and `\b` use
Python's Unicode tables; they are embedded below exactly (`wordRanges`
is the full codepoint-range table of `\w`, `spaceChars` the full
character list of `\s`, both read off CPython's own `re`), and `(?i)`
matching of the pattern's literals carries sre's one extra Unicode
case-equivalence that touches them, s ~ ſ (U+017F).
-/

/-- The exact character set of Python's Unicode `\s` (str patterns):
ASCII whitespace including the file/group/record/unit separators
1C-1F, next line 85, and the Unicode Zs/Zl/Zp spaces. -/
def spaceChars : List Char :=
  ['\x09', '\x0a', '\x0b', '\x0c', '\x0d', '\x1c', '\x1d', '\x1e', '\x1f', ' ',
   '\x85', '\xa0', '\u1680', '\u2000', '\u2001', '\u2002', '\u2003', '\u2004', '\u2005',
   '\u2006', '\u2007', '\u2008', '\u2009', '\u200a', '\u2028', '\u2029', '\u202f',
   '\u205f', '\u3000']

/-- Python's Unicode `\s`. -/
def isSpaceChar (c : Char) : Bool := spaceChars.any (fun x => c == x)

/-- The inclusive codepoint ranges of Python's Unicode `\w` (str
patterns): alphanumerics (Unicode alphabetic, decimal, digit or numeric
characters) and the underscore, read off CPython's `re` table by table. -/
def wordRanges : List (Nat × Nat) :=
  [(48, 57), (65, 90), (95, 95), (97, 122), (170, 170), (178, 179), (181, 181), (185, 186),
   (188, 190), (192, 214), (216, 246), (248, 705), (710, 721), (736, 740), (748, 748),
   (750, 750), (880, 884), (886, 887), (890, 893), (895, 895), (902, 902), (904, 906),
   (908, 908), (910, 929), (931, 1013), (1015, 1153), (1162, 1327), (1329, 1366), (1369, 1369),
   (1376, 1416), (1488, 1514), (1519, 1522), (1568, 1610), (1632, 1641), (1646, 1647),
   (1649, 1747), (1749, 1749), (1765, 1766), (1774, 1788), (1791, 1791), (1808, 1808),
   (1810, 1839), (1869, 1957), (1969, 1969), (1984, 2026), (2036, 2037), (2042, 2042),
   (2048, 2069), (2074, 2074), (2084, 2084), (2088, 2088), (2112, 2136), (2144, 2154),
   (2160, 2183), (2185, 2190), (2208, 2249), (2308, 2361), (2365, 2365), (2384, 2384),
   (2392, 2401), (2406, 2415), (2417, 2432), (2437, 2444), (2447, 2448), (2451, 2472),
   (2474, 2480), (2482, 2482), (2486, 2489), (2493, 2493), (2510, 2510), (2524, 2525),
   (2527, 2529), (2534, 2545), (2548, 2553), (2556, 2556), (2565, 2570), (2575, 2576),
   (2579, 2600), (2602, 2608), (2610, 2611), (2613, 2614), (2616, 2617), (2649, 2652),
   (2654, 2654), (2662, 2671), (2674, 2676), (2693, 2701), (2703, 2705), (2707, 2728),
   (2730, 2736), (2738, 2739), (2741, 2745), (2749, 2749), (2768, 2768), (2784, 2785),
   (2790, 2799), (2809, 2809), (2821, 2828), (2831, 2832), (2835, 2856), (2858, 2864),
   (2866, 2867), (2869, 2873), (2877, 2877), (2908, 2909), (2911, 2913), (2918, 2927),
   (2929, 2935), (2947, 2947), (2949, 2954), (2958, 2960), (2962, 2965), (2969, 2970),
   (2972, 2972), (2974, 2975), (2979, 2980), (2984, 2986), (2990, 3001), (3024, 3024),
   (3046, 3058), (3077, 3084), (3086, 3088), (3090, 3112), (3114, 3129), (3133, 3133),
   (3160, 3162), (3165, 3165), (3168, 3169), (3174, 3183), (3192, 3198), (3200, 3200),
   (3205, 3212), (3214, 3216), (3218, 3240), (3242, 3251), (3253, 3257), (3261, 3261),
   (3293, 3294), (3296, 3297), (3302, 3311), (3313, 3314), (3332, 3340), (3342, 3344),
   (3346, 3386), (3389, 3389), (3406, 3406), (3412, 3414), (3416, 3425), (3430, 3448),
   (3450, 3455), (3461, 3478), (3482, 3505), (3507, 3515), (3517, 3517), (3520, 3526),
   (3558, 3567), (3585, 3632), (3634, 3635), (3648, 3654), (3664, 3673), (3713, 3714),
   (3716, 3716), (3718, 3722), (3724, 3747), (3749, 3749), (3751, 3760), (3762, 3763),
   (3773, 3773), (3776, 3780), (3782, 3782), (3792, 3801), (3804, 3807), (3840, 3840),
   (3872, 3891), (3904, 3911), (3913, 3948), (3976, 3980), (4096, 4138), (4159, 4169),
   (4176, 4181), (4186, 4189), (4193, 4193), (4197, 4198), (4206, 4208), (4213, 4225),
   (4238, 4238), (4240, 4249), (4256, 4293), (4295, 4295), (4301, 4301), (4304, 4346),
   (4348, 4680), (4682, 4685), (4688, 4694), (4696, 4696), (4698, 4701), (4704, 4744),
   (4746, 4749), (4752, 4784), (4786, 4789), (4792, 4798), (4800, 4800), (4802, 4805),
   (4808, 4822), (4824, 4880), (4882, 4885), (4888, 4954), (4969, 4988), (4992, 5007),
   (5024, 5109), (5112, 5117), (5121, 5740), (5743, 5759), (5761, 5786), (5792, 5866),
   (5870, 5880), (5888, 5905), (5919, 5937), (5952, 5969), (5984, 5996), (5998, 6000),
   (6016, 6067), (6103, 6103), (6108, 6108), (6112, 6121), (6128, 6137), (6160, 6169),
   (6176, 6264), (6272, 6276), (6279, 6312), (6314, 6314), (6320, 6389), (6400, 6430),
   (6470, 6509), (6512, 6516), (6528, 6571), (6576, 6601), (6608, 6618), (6656, 6678),
   (6688, 6740), (6784, 6793), (6800, 6809), (6823, 6823), (6917, 6963), (6981, 6988),
   (6992, 7001), (7043, 7072), (7086, 7141), (7168, 7203), (7232, 7241), (7245, 7293),
   (7296, 7304), (7312, 7354), (7357, 7359), (7401, 7404), (7406, 7411), (7413, 7414),
   (7418, 7418), (7424, 7615), (7680, 7957), (7960, 7965), (7968, 8005), (8008, 8013),
   (8016, 8023), (8025, 8025), (8027, 8027), (8029, 8029), (8031, 8061), (8064, 8116),
   (8118, 8124), (8126, 8126), (8130, 8132), (8134, 8140), (8144, 8147), (8150, 8155),
   (8160, 8172), (8178, 8180), (8182, 8188), (8304, 8305), (8308, 8313), (8319, 8329),
   (8336, 8348), (8450, 8450), (8455, 8455), (8458, 8467), (8469, 8469), (8473, 8477),
   (8484, 8484), (8486, 8486), (8488, 8488), (8490, 8493), (8495, 8505), (8508, 8511),
   (8517, 8521), (8526, 8526), (8528, 8585), (9312, 9371), (9450, 9471), (10102, 10131),
   (11264, 11492), (11499, 11502), (11506, 11507), (11517, 11517), (11520, 11557),
   (11559, 11559), (11565, 11565), (11568, 11623), (11631, 11631), (11648, 11670),
   (11680, 11686), (11688, 11694), (11696, 11702), (11704, 11710), (11712, 11718),
   (11720, 11726), (11728, 11734), (11736, 11742), (11823, 11823), (12293, 12295),
   (12321, 12329), (12337, 12341), (12344, 12348), (12353, 12438), (12445, 12447),
   (12449, 12538), (12540, 12543), (12549, 12591), (12593, 12686), (12690, 12693),
   (12704, 12735), (12784, 12799), (12832, 12841), (12872, 12879), (12881, 12895),
   (12928, 12937), (12977, 12991), (13312, 19903), (19968, 42124), (42192, 42237),
   (42240, 42508), (42512, 42539), (42560, 42606), (42623, 42653), (42656, 42735),
   (42775, 42783), (42786, 42888), (42891, 42954), (42960, 42961), (42963, 42963),
   (42965, 42969), (42994, 43009), (43011, 43013), (43015, 43018), (43020, 43042),
   (43056, 43061), (43072, 43123), (43138, 43187), (43216, 43225), (43250, 43255),
   (43259, 43259), (43261, 43262), (43264, 43301), (43312, 43334), (43360, 43388),
   (43396, 43442), (43471, 43481), (43488, 43492), (43494, 43518), (43520, 43560),
   (43584, 43586), (43588, 43595), (43600, 43609), (43616, 43638), (43642, 43642),
   (43646, 43695), (43697, 43697), (43701, 43702), (43705, 43709), (43712, 43712),
   (43714, 43714), (43739, 43741), (43744, 43754), (43762, 43764), (43777, 43782),
   (43785, 43790), (43793, 43798), (43808, 43814), (43816, 43822), (43824, 43866),
   (43868, 43881), (43888, 44002), (44016, 44025), (44032, 55203), (55216, 55238),
   (55243, 55291), (63744, 64109), (64112, 64217), (64256, 64262), (64275, 64279),
   (64285, 64285), (64287, 64296), (64298, 64310), (64312, 64316), (64318, 64318),
   (64320, 64321), (64323, 64324), (64326, 64433), (64467, 64829), (64848, 64911),
   (64914, 64967), (65008, 65019), (65136, 65140), (65142, 65276), (65296, 65305),
   (65313, 65338), (65345, 65370), (65382, 65470), (65474, 65479), (65482, 65487),
   (65490, 65495), (65498, 65500), (65536, 65547), (65549, 65574), (65576, 65594),
   (65596, 65597), (65599, 65613), (65616, 65629), (65664, 65786), (65799, 65843),
   (65856, 65912), (65930, 65931), (66176, 66204), (66208, 66256), (66273, 66299),
   (66304, 66339), (66349, 66378), (66384, 66421), (66432, 66461), (66464, 66499),
   (66504, 66511), (66513, 66517), (66560, 66717), (66720, 66729), (66736, 66771),
   (66776, 66811), (66816, 66855), (66864, 66915), (66928, 66938), (66940, 66954),
   (66956, 66962), (66964, 66965), (66967, 66977), (66979, 66993), (66995, 67001),
   (67003, 67004), (67072, 67382), (67392, 67413), (67424, 67431), (67456, 67461),
   (67463, 67504), (67506, 67514), (67584, 67589), (67592, 67592), (67594, 67637),
   (67639, 67640), (67644, 67644), (67647, 67669), (67672, 67702), (67705, 67742),
   (67751, 67759), (67808, 67826), (67828, 67829), (67835, 67867), (67872, 67897),
   (67968, 68023), (68028, 68047), (68050, 68096), (68112, 68115), (68117, 68119),
   (68121, 68149), (68160, 68168), (68192, 68222), (68224, 68255), (68288, 68295),
   (68297, 68324), (68331, 68335), (68352, 68405), (68416, 68437), (68440, 68466),
   (68472, 68497), (68521, 68527), (68608, 68680), (68736, 68786), (68800, 68850),
   (68858, 68899), (68912, 68921), (69216, 69246), (69248, 69289), (69296, 69297),
   (69376, 69415), (69424, 69445), (69457, 69460), (69488, 69505), (69552, 69579),
   (69600, 69622), (69635, 69687), (69714, 69743), (69745, 69746), (69749, 69749),
   (69763, 69807), (69840, 69864), (69872, 69881), (69891, 69926), (69942, 69951),
   (69956, 69956), (69959, 69959), (69968, 70002), (70006, 70006), (70019, 70066),
   (70081, 70084), (70096, 70106), (70108, 70108), (70113, 70132), (70144, 70161),
   (70163, 70187), (70272, 70278), (70280, 70280), (70282, 70285), (70287, 70301),
   (70303, 70312), (70320, 70366), (70384, 70393), (70405, 70412), (70415, 70416),
   (70419, 70440), (70442, 70448), (70450, 70451), (70453, 70457), (70461, 70461),
   (70480, 70480), (70493, 70497), (70656, 70708), (70727, 70730), (70736, 70745),
   (70751, 70753), (70784, 70831), (70852, 70853), (70855, 70855), (70864, 70873),
   (71040, 71086), (71128, 71131), (71168, 71215), (71236, 71236), (71248, 71257),
   (71296, 71338), (71352, 71352), (71360, 71369), (71424, 71450), (71472, 71483),
   (71488, 71494), (71680, 71723), (71840, 71922), (71935, 71942), (71945, 71945),
   (71948, 71955), (71957, 71958), (71960, 71983), (71999, 71999), (72001, 72001),
   (72016, 72025), (72096, 72103), (72106, 72144), (72161, 72161), (72163, 72163),
   (72192, 72192), (72203, 72242), (72250, 72250), (72272, 72272), (72284, 72329),
   (72349, 72349), (72368, 72440), (72704, 72712), (72714, 72750), (72768, 72768),
   (72784, 72812), (72818, 72847), (72960, 72966), (72968, 72969), (72971, 73008),
   (73030, 73030), (73040, 73049), (73056, 73061), (73063, 73064), (73066, 73097),
   (73112, 73112), (73120, 73129), (73440, 73458), (73648, 73648), (73664, 73684),
   (73728, 74649), (74752, 74862), (74880, 75075), (77712, 77808), (77824, 78894),
   (82944, 83526), (92160, 92728), (92736, 92766), (92768, 92777), (92784, 92862),
   (92864, 92873), (92880, 92909), (92928, 92975), (92992, 92995), (93008, 93017),
   (93019, 93025), (93027, 93047), (93053, 93071), (93760, 93846), (93952, 94026),
   (94032, 94032), (94099, 94111), (94176, 94177), (94179, 94179), (94208, 100343),
   (100352, 101589), (101632, 101640), (110576, 110579), (110581, 110587), (110589, 110590),
   (110592, 110882), (110928, 110930), (110948, 110951), (110960, 111355), (113664, 113770),
   (113776, 113788), (113792, 113800), (113808, 113817), (119520, 119539), (119648, 119672),
   (119808, 119892), (119894, 119964), (119966, 119967), (119970, 119970), (119973, 119974),
   (119977, 119980), (119982, 119993), (119995, 119995), (119997, 120003), (120005, 120069),
   (120071, 120074), (120077, 120084), (120086, 120092), (120094, 120121), (120123, 120126),
   (120128, 120132), (120134, 120134), (120138, 120144), (120146, 120485), (120488, 120512),
   (120514, 120538), (120540, 120570), (120572, 120596), (120598, 120628), (120630, 120654),
   (120656, 120686), (120688, 120712), (120714, 120744), (120746, 120770), (120772, 120779),
   (120782, 120831), (122624, 122654), (123136, 123180), (123191, 123197), (123200, 123209),
   (123214, 123214), (123536, 123565), (123584, 123627), (123632, 123641), (124896, 124902),
   (124904, 124907), (124909, 124910), (124912, 124926), (124928, 125124), (125127, 125135),
   (125184, 125251), (125259, 125259), (125264, 125273), (126065, 126123), (126125, 126127),
   (126129, 126132), (126209, 126253), (126255, 126269), (126464, 126467), (126469, 126495),
   (126497, 126498), (126500, 126500), (126503, 126503), (126505, 126514), (126516, 126519),
   (126521, 126521), (126523, 126523), (126530, 126530), (126535, 126535), (126537, 126537),
   (126539, 126539), (126541, 126543), (126545, 126546), (126548, 126548), (126551, 126551),
   (126553, 126553), (126555, 126555), (126557, 126557), (126559, 126559), (126561, 126562),
   (126564, 126564), (126567, 126570), (126572, 126578), (126580, 126583), (126585, 126588),
   (126590, 126590), (126592, 126601), (126603, 126619), (126625, 126627), (126629, 126633),
   (126635, 126651), (127232, 127244), (130032, 130041), (131072, 173791), (173824, 177976),
   (177984, 178205), (178208, 183969), (183984, 191456), (194560, 195101), (196608, 201546)]

/-- Python's Unicode `\w`: codepoint lies in one of `wordRanges`. -/
def wordChar (c : Char) : Bool :=
  wordRanges.any (fun r => r.1 ≤ c.toNat && c.toNat ≤ r.2)

/-- The class `[\w\-]` of video-id characters. -/
def idChar (c : Char) : Bool := wordChar c || c == '-'

/-- Case-insensitive match of one input character against one pattern
literal, per CPython's sre rules for `(?i)` on str patterns: characters
match when their simple lowercase forms coincide, or when they fall in
one of sre's extra case-equivalence classes.  The pattern's literals are
the ASCII characters y o u t b e c m w a h s v p and `: / . ? =`; the
only Unicode character beyond the literal and its ASCII uppercase that
case-matches any of them is ſ (U+017F) against `s` (verified against
`re` over the whole codepoint space), so ASCII `toLower` plus that one
equivalence is exact here. -/
def ciMatch (l c : Char) : Bool :=
  c.toLower == l.toLower || (l == 's' && c == 'ſ')

/-- Strip a literal (case-insensitively, for the `(?i)` flag) from the
front of the input; returns the rest on success. -/
def stripCI : List Char → List Char → Option (List Char)
  | [], cs => some cs
  | _ :: _, [] => none
  | l :: ls, c :: cs => if ciMatch l c then stripCI ls cs else none

/-- After a host literal, the regex requires `[\w\-]+\S*`: at least one
id character, and then (both quantifiers being greedy, with nothing
after them to give back to) the match extends through the whole maximal
run of non-whitespace characters.  Returns the number of characters
consumed. -/
def idRun (cs : List Char) : Option Nat :=
  match cs with
  | [] => none
  | c :: _ => if idChar c then some ((cs.takeWhile (fun x => !isSpaceChar x)).length) else none

/-- The alternation `youtube\.com/watch\?v=[\w\-]+\S*|youtu\.be/[\w\-]+\S*`,
first branch preferred; returns the number of characters consumed. -/
def matchHost (cs : List Char) : Option Nat :=
  match (stripCI "youtube.com/watch?v=".data cs).bind idRun with
  | some n => some ("youtube.com/watch?v=".data.length + n)
  | none =>
    match (stripCI "youtu.be/".data cs).bind idRun with
    | some n => some ("youtu.be/".data.length + n)
    | none => none

/-- One choice of the optional scheme and `www.` groups followed by the
host alternation; returns the total number of characters consumed. -/
def tryVariant (scheme www : List Char) (cs : List Char) : Option Nat :=
  (stripCI scheme cs).bind fun r1 =>
    (stripCI www r1).bind fun r2 =>
      (matchHost r2).map fun n => scheme.length + www.length + n

/-- Match the whole pattern at the start of `cs`.  Backtracking order of
the optional groups: `https://` before `http://` before no scheme
(greedy `s?` inside a preferred-present optional group), and `www.`
before its absence.  At most one variant can succeed at a given start,
so the order only mirrors the engine, it does not change the result. -/
def matchAt (cs : List Char) : Option Nat :=
  (tryVariant "https://".data "www.".data cs).orElse fun _ =>
    (tryVariant "https://".data [] cs).orElse fun _ =>
      (tryVariant "http://".data "www.".data cs).orElse fun _ =>
        (tryVariant "http://".data [] cs).orElse fun _ =>
          (tryVariant [] "www.".data cs).orElse fun _ =>
            tryVariant [] [] cs

/-- The `\b` assertion: every successful `matchAt` starts with a word
character (`h`, `w` or `y`), so the boundary holds exactly when the
preceding character (if any) is not a word character. -/
def boundaryOk : Option Char → Bool
  | none => true
  | some p => !wordChar p

/-- `re.search` over the character list: try each position from the left,
carrying the previous character for the word-boundary test; returns the
match position (relative to `pos`) and length. -/
def searchFrom : Option Char → List Char → Nat → Option (Nat × Nat)
  | _, [], _ => none
  | prev, c :: rest, pos =>
    match if boundaryOk prev then matchAt (c :: rest) else none with
    | some n => some (pos, n)
    | none => searchFrom (some c) rest (pos + 1)

/-- `YOUTUBE_RE.search(text)`: position and length of the leftmost match. -/
def regexSearch (s : String) : Option (Nat × Nat) :=
  searchFrom none s.data 0

/-- `match.group(0)` of `YOUTUBE_RE.search(text)` (app.py lines 107, 112):
the matched substring, or `none` when the pattern does not occur. -/
def matchedUrl (s : String) : Option String :=
  match regexSearch s with
  | some (p, n) => some (String.mk ((s.data.drop p).take n))
  | none => none

-- concrete evaluation checks of the regex model (cross-checked against Python re)
example : matchedUrl "hello" = none := by decide
example : matchedUrl "look https://youtu.be/abc now" = some "https://youtu.be/abc" := by decide
example : matchedUrl "https://www.youtube.com/watch?v=dQw4w9WgXcQ" =
    some "https://www.youtube.com/watch?v=dQw4w9WgXcQ" := by decide
example : matchedUrl "YOUTU.BE/A-b_c?t=1s, wow" = some "YOUTU.BE/A-b_c?t=1s," := by decide
example : matchedUrl "xyoutu.be/abc" = none := by decide
example : matchedUrl "youtu.be/ abc" = none := by decide
example : matchedUrl "www.youtube.com/watch?v=id" = some "www.youtube.com/watch?v=id" := by decide
example : matchedUrl "wwwyoutu.be/abc" = none := by decide
example : matchedUrl "see www.www.youtube.com/watch?v=x end" = some "www.youtube.com/watch?v=x" := by decide
example : matchedUrl "-youtu.be/abc" = some "youtu.be/abc" := by decide
-- Unicode behaviour, cross-checked against Python: ж is a word char
-- (id accepted), é and the Kelvin sign K are word chars (so \b blocks
-- the match), U+00A0 / U+001C / U+2028 are whitespace (match stops),
-- and ſ case-matches the s of https under (?i).
example : matchedUrl "youtu.be/ж" = some "youtu.be/ж" := by decide
example : matchedUrl "éyoutu.be/abc" = none := by decide
example : matchedUrl "\u212ayoutu.be/abc" = none := by decide
example : matchedUrl "youtu.be/abc\u00a0tail" = some "youtu.be/abc" := by decide
example : matchedUrl "youtu.be/abc\x1ctail" = some "youtu.be/abc" := by decide
example : matchedUrl "youtu.be/abc\u2028x" = some "youtu.be/abc" := by decide
example : matchedUrl "httpſ://youtu.be/abc" = some "httpſ://youtu.be/abc" := by decide

/-!
The session orchestrator `handle_message` (app.py lines 98-200), and the
extraction call `run_yt_dlp` (lines 40-82).  The environment `Env`
collects everything the handler's control flow depends on: the inbound
message, the engine's behaviour, the workspace contents after the
download, and — one Boolean per fallible messaging call site — whether
that call raises.  `send_safe_edit` (lines 85-91) swallows all errors, so
its call sites need no Boolean.  The handler returns the ordered trace of
attempted external effects together with its terminal outcome; an
uncaught exception propagating out of the handler is the outcome
`crashed`, and any code after the raise point (in particular the final
cleanup block, lines 196-200) does not run.
-/

/-- One attempted external effect of a session.  The trace records
attempts; whether an attempt succeeds is given by the environment. -/
inductive Event where
  | replyText (t : String)
  | createStatus (t : String)
  | chatAction (a : String)
  | safeEdit (t : String)
  | editStatus (t : String)
  | download (url : String)
  | killProc
  | sendVideo (filename caption : String)
  | sendDocument (filename caption : String)
  | wsCreate
  | wsCleanup
deriving DecidableEq, Repr

/-- Terminal outcome of one invocation of the handler. -/
inductive Outcome where
  | ignored
  | rejected
  | failedDownload
  | noOutput
  | tooLarge
  | doneVideo
  | doneDocument
  | uploadFailed
  | crashed
deriving DecidableEq, Repr

/-- Environment of one handler invocation.  The `...Ok` fields say
whether the corresponding fallible messaging call succeeds (`true`) or
raises (`false`). -/
structure Env where
  hasText : Bool
  chatType : String
  text : String
  rejectReplyOk : Bool
  statusCreateOk : Bool
  typingOk : Bool
  timesOut : Bool
  exitCode : Int
  log : String
  entries : List Entry
  editFailNoteOk : Bool
  replyFailNoteOk : Bool
  editNoFileOk : Bool
  replyNoFileOk : Bool
  editTooLargeOk : Bool
  replyTooLargeOk : Bool
  uploadActionOk : Bool
  videoOk : Bool
  documentOk : Bool
  uploadErrText : String
  editUploadFailOk : Bool
  replyUploadFailOk : Bool
deriving Repr

/-- Python's `s[-n:]`: the last `min(n, len s)` characters. -/
def tailChars (n : Nat) (s : String) : String :=
  String.mk (s.data.drop (s.data.length - n))

/-- Model of `run_yt_dlp` (app.py lines 40-82): on timeout the subprocess
is killed and the call returns exit code 124 with the fixed log
`"yt-dlp timed out"` (lines 74-78); otherwise it returns the engine's
exit code and combined output.  The first component records whether
`proc.kill()` was invoked. -/
def run_yt_dlp (timesOut : Bool) (exitCode : Int) (log : String) : Bool × Int × String :=
  if timesOut then (true, 124, "yt-dlp timed out") else (false, exitCode, log)

/-- Status and reply texts of app.py (the curly quotes are the source's). -/
def rejectionText : String := "Please send a valid YouTube URL."

def analyzingText : String := "Analyzing link…"

def downloadingText : String := "Downloading the best video + audio…"

def uploadingText : String := "Uploading to Telegram…"

def doneText : String := "Done ✅"

def captionText : String := "Here you go 🎬"

def noFileNote : String :=
  "I couldn’t find the merged output file. The video might be protected."

/-- The download-failure note (app.py lines 132-138), with the last 1500
characters of the log interpolated. -/
def errNote (log : String) : String :=
  "Download failed.\n\n• Make sure the video isn’t DRM-protected (Movies/TV often are).\n• Some formats may be temporarily unavailable (SABR/‘signature’ warnings).\n• Ensure the bot runs a recent yt-dlp build.\n\nyt-dlp log:\n```\n"
    ++ tailChars 1500 log ++ "\n```"

/-- Integer-arithmetic rendering of `round(size / (1024*1024), 1)`
followed by Python's float formatting (app.py line 158).  The claims do
not depend on this text; round-half-up in tenths of a MiB stands in for
the float rounding. -/
def humanMB (size : Nat) : String :=
  let tenths := (size * 10 + 524288) / 1048576
  toString (tenths / 10) ++ "." ++ toString (tenths % 10)

/-- The size-rejection note (app.py lines 160-163). -/
def tooLargeNote (size : Nat) : String :=
  "The file is " ++ humanMB size ++
    " MB, which exceeds Telegram’s ~2000 MB limit. I can’t upload it. Try a lower resolution with a different link."

/-- The upload-failure note (app.py line 190), with the exception text
and the last 1000 characters of the log interpolated. -/
def uploadFailNote (errText log : String) : String :=
  "Upload failed: " ++ errText ++ "\n\nLog tail:\n```\n" ++ tailChars 1000 log ++ "\n```"

/-- The repeated failure-reporting pattern of app.py (lines 139-144,
149-154, 159-170, and 188-200): try to edit the status message with the
note; on failure reply with the note instead; if the reply also raises,
the exception propagates and the cleanup that follows never runs;
otherwise the workspace is cleaned up and the handler returns. -/
def failReport (pre : List Event) (note : String) (editOk replyOk : Bool)
    (oc : Outcome) : List Event × Outcome :=
  if editOk then (pre ++ [Event.editStatus note, Event.wsCleanup], oc)
  else if replyOk then
    (pre ++ [Event.editStatus note, Event.replyText note, Event.wsCleanup], oc)
  else (pre ++ [Event.editStatus note, Event.replyText note], Outcome.crashed)

/-- The delivery step (app.py lines 175-200): try `reply_video`; on any
failure try `reply_document` with the same filename and caption; if that
also fails, report the upload failure.  Both success paths edit the
status to `Done ✅` (best-effort) and reach the final cleanup block. -/
def deliver (pre : List Event) (e : Entry) (env : Env) (log : String) :
    List Event × Outcome :=
  let t := pre ++ [Event.sendVideo e.name captionText]
  if env.videoOk then (t ++ [Event.safeEdit doneText, Event.wsCleanup], Outcome.doneVideo)
  else
    let t2 := t ++ [Event.sendDocument e.name captionText]
    if env.documentOk then
      (t2 ++ [Event.safeEdit doneText, Event.wsCleanup], Outcome.doneDocument)
    else
      failReport t2 (uploadFailNote env.uploadErrText log)
        env.editUploadFailOk env.replyUploadFailOk Outcome.uploadFailed

/-- The size guard and upload stage (app.py lines 156-200): reject when
the artifact's size strictly exceeds `TELEGRAM_MAX_BYTES`; otherwise send
the `upload_video` chat action (unguarded — if it raises, the exception
propagates and cleanup never runs), edit the status, and deliver. -/
def afterPick (pre : List Event) (e : Entry) (env : Env) (log : String) :
    List Event × Outcome :=
  if e.size > TELEGRAM_MAX_BYTES then
    failReport pre (tooLargeNote e.size) env.editTooLargeOk env.replyTooLargeOk
      Outcome.tooLarge
  else
    let t := pre ++ [Event.chatAction "upload_video"]
    if !env.uploadActionOk then (t, Outcome.crashed)
    else deliver (t ++ [Event.safeEdit uploadingText]) e env log

/-- The post-download stage (app.py lines 130-200): nonzero exit code
reports the download failure; otherwise select the artifact (a selected
entry exists in the model, so the `out_file.exists()` re-check of line
148 cannot fire) and continue. -/
def afterDownload (pre : List Event) (env : Env) (code : Int) (log : String) :
    List Event × Outcome :=
  if code ≠ 0 then
    failReport pre (errNote log) env.editFailNoteOk env.replyFailNoteOk
      Outcome.failedDownload
  else
    match pick_best_output_file env.entries with
    | none =>
      failReport pre noFileNote env.editNoFileOk env.replyNoFileOk Outcome.noOutput
    | some e => afterPick pre e env log

/-- The message handler (app.py lines 98-200) as a pure function from the
environment to the trace of attempted effects and the terminal outcome.
Control flow mirrors the source: no text or non-private chat returns
silently; a non-matching text sends the single rejection reply; otherwise
the status message is created, the typing action sent (both unguarded —
a raise propagates before the workspace exists), the temp workspace
created, and the pipeline runs. -/
def handle_message (env : Env) : List Event × Outcome :=
  if !env.hasText then ([], Outcome.ignored)
  else if env.chatType ≠ "private" then ([], Outcome.ignored)
  else
    match matchedUrl env.text with
    | none =>
      ([Event.replyText rejectionText],
        if env.rejectReplyOk then Outcome.rejected else Outcome.crashed)
    | some url =>
      let t0 := [Event.createStatus analyzingText]
      if !env.statusCreateOk then (t0, Outcome.crashed)
      else
        let t1 := t0 ++ [Event.chatAction "typing"]
        if !env.typingOk then (t1, Outcome.crashed)
        else
          let r := run_yt_dlp env.timesOut env.exitCode env.log
          let t2 := t1 ++ [Event.wsCreate, Event.safeEdit downloadingText, Event.download url]
              ++ (if r.1 then [Event.killProc] else [])
          afterDownload t2 env r.2.1 r.2.2

/-- Classifier for upload attempts in a trace. -/
def isUpload : Event → Bool
  | Event.sendVideo _ _ => true
  | Event.sendDocument _ _ => true
  | _ => false

/-- Classifier for status-message creations in a trace. -/
def isCreate : Event → Bool
  | Event.createStatus _ => true
  | _ => false

/-- Classifier for plain reply messages in a trace. -/
def isReply : Event → Bool
  | Event.replyText _ => true
  | _ => false

/-!
Helper lemmas: lists, `firstMax`, and the stages of the handler.
-/

theorem take_append_add (a b : List Char) (k : Nat) :
    (a ++ b).take (a.length + k) = a ++ b.take k := by
  induction a with
  | nil => simp
  | cons c cs ih => simp [List.take_succ_cons, Nat.succ_add, ih]

theorem drop_append_add (a b : List Char) (k : Nat) :
    (a ++ b).drop (a.length + k) = b.drop k := by
  induction a with
  | nil => simp
  | cons c cs ih => simp [List.drop_succ_cons, Nat.succ_add, ih]

theorem take_length_takeWhile (p : Char → Bool) (l : List Char) :
    l.take (l.takeWhile p).length = l.takeWhile p := by
  induction l with
  | nil => rfl
  | cons c cs ih =>
    by_cases h : p c
    · simp [List.takeWhile_cons, h, List.take_succ_cons, ih]
    · simp [List.takeWhile_cons, h]

theorem drop_length_takeWhile (p : Char → Bool) (l : List Char) :
    l.drop (l.takeWhile p).length = l.dropWhile p := by
  induction l with
  | nil => rfl
  | cons c cs ih =>
    by_cases h : p c
    · simp [List.takeWhile_cons, h, List.dropWhile_cons, List.drop_succ_cons, ih]
    · simp [List.takeWhile_cons, h, List.dropWhile_cons]

theorem all_takeWhile (p : Char → Bool) (l : List Char) :
    ((l.takeWhile p).all p) = true := by
  induction l with
  | nil => rfl
  | cons c cs ih =>
    by_cases h : p c
    · simp [List.takeWhile_cons, h, ih]
    · simp [List.takeWhile_cons, h]

theorem head_dropWhile (p : Char → Bool) (l : List Char) :
    (((l.dropWhile p).take 1).all (fun c => !p c)) = true := by
  induction l with
  | nil => rfl
  | cons c cs ih =>
    by_cases h : p c
    · simpa [List.dropWhile_cons, h] using ih
    · simp [List.dropWhile_cons, h]

theorem firstMax_eq_none {key : Entry → Nat} {l : List Entry} :
    firstMax key l = none ↔ l = [] := by
  cases l with
  | nil => simp [firstMax]
  | cons e es =>
    constructor
    · intro h
      exfalso
      rw [firstMax] at h
      revert h
      cases hm : firstMax key es with
      | none => intro h; simp at h
      | some m =>
        intro h
        by_cases hk : key e ≥ key m <;> simp [hk] at h
    · intro h; exact absurd h (List.cons_ne_nil e es)

theorem firstMax_mem {key : Entry → Nat} {l : List Entry} {e : Entry}
    (h : firstMax key l = some e) : e ∈ l := by
  induction l with
  | nil => simp [firstMax] at h
  | cons a as ih =>
    rw [firstMax] at h
    revert h
    cases hm : firstMax key as with
    | none =>
      intro h; simp at h; simp [h]
    | some m =>
      intro h
      by_cases hk : key a ≥ key m
      · simp [hk] at h; simp [h]
      · simp [hk] at h
        exact List.mem_cons_of_mem _ (ih (h ▸ hm))

theorem firstMax_le {key : Entry → Nat} {l : List Entry} :
    ∀ {e : Entry}, firstMax key l = some e → ∀ x ∈ l, key x ≤ key e := by
  induction l with
  | nil => intro e h; simp [firstMax] at h
  | cons a as ih =>
    intro e h
    rw [firstMax] at h
    revert h
    cases hm : firstMax key as with
    | none =>
      intro h; simp at h; subst h
      have hnil : as = [] := firstMax_eq_none.mp hm
      subst hnil; simp
    | some m =>
      intro h
      by_cases hk : key a ≥ key m
      · simp [hk] at h; subst h
        intro x hx
        rcases List.mem_cons.mp hx with rfl | hx'
        · exact Nat.le_refl _
        · exact Nat.le_trans (ih hm x hx') hk
      · simp [hk] at h
        have hm' : firstMax key as = some e := h ▸ hm
        intro x hx
        rcases List.mem_cons.mp hx with rfl | hx'
        · have hlt : key x < key m := Nat.lt_of_not_le hk
          exact Nat.le_of_lt (h ▸ hlt)
        · exact ih hm' x hx'

/-- Trace prefix common to every URL-matching session that survives the
status creation and the typing action (app.py lines 115-128). -/
def sessionPre (url : String) : List Event :=
  [Event.createStatus analyzingText, Event.chatAction "typing", Event.wsCreate,
    Event.safeEdit downloadingText, Event.download url]

theorem failReport_edit_eq {pre note oc} {eo ro : Bool} (he : eo = true) :
    failReport pre note eo ro oc = (pre ++ [Event.editStatus note, Event.wsCleanup], oc) := by
  simp [failReport, he]

theorem failReport_reply_eq {pre note oc} {eo ro : Bool} (he : eo = false) (hr : ro = true) :
    failReport pre note eo ro oc =
      (pre ++ [Event.editStatus note, Event.replyText note, Event.wsCleanup], oc) := by
  simp [failReport, he, hr]

theorem failReport_crash_eq {pre note oc} {eo ro : Bool} (he : eo = false) (hr : ro = false) :
    failReport pre note eo ro oc =
      (pre ++ [Event.editStatus note, Event.replyText note], Outcome.crashed) := by
  simp [failReport, he, hr]

theorem deliver_video_eq {pre e log} {env : Env} (hv : env.videoOk = true) :
    deliver pre e env log =
      (pre ++ [Event.sendVideo e.name captionText, Event.safeEdit doneText, Event.wsCleanup],
        Outcome.doneVideo) := by
  simp [deliver, hv]

theorem deliver_doc_eq {pre e log} {env : Env} (hv : env.videoOk = false)
    (hd : env.documentOk = true) :
    deliver pre e env log =
      (pre ++ [Event.sendVideo e.name captionText, Event.sendDocument e.name captionText,
        Event.safeEdit doneText, Event.wsCleanup], Outcome.doneDocument) := by
  simp [deliver, hv, hd]

theorem deliver_fail_eq {pre e log} {env : Env} (hv : env.videoOk = false)
    (hd : env.documentOk = false) :
    deliver pre e env log =
      failReport (pre ++ [Event.sendVideo e.name captionText,
          Event.sendDocument e.name captionText])
        (uploadFailNote env.uploadErrText log) env.editUploadFailOk env.replyUploadFailOk
        Outcome.uploadFailed := by
  simp [deliver, hv, hd]

theorem afterPick_large_eq {pre log} {e : Entry} {env : Env}
    (hs : e.size > TELEGRAM_MAX_BYTES) :
    afterPick pre e env log =
      failReport pre (tooLargeNote e.size) env.editTooLargeOk env.replyTooLargeOk
        Outcome.tooLarge := by
  simp [afterPick, hs]

theorem afterPick_crash_eq {pre log} {e : Entry} {env : Env}
    (hs : ¬e.size > TELEGRAM_MAX_BYTES) (hu : env.uploadActionOk = false) :
    afterPick pre e env log = (pre ++ [Event.chatAction "upload_video"], Outcome.crashed) := by
  simp [afterPick, hs, hu]

theorem afterPick_fits_eq {pre log} {e : Entry} {env : Env}
    (hs : ¬e.size > TELEGRAM_MAX_BYTES) (hu : env.uploadActionOk = true) :
    afterPick pre e env log =
      deliver (pre ++ [Event.chatAction "upload_video", Event.safeEdit uploadingText])
        e env log := by
  simp [afterPick, hs, hu]

theorem afterDownload_fail_eq {pre log} {env : Env} {code : Int} (hc : code ≠ 0) :
    afterDownload pre env code log =
      failReport pre (errNote log) env.editFailNoteOk env.replyFailNoteOk
        Outcome.failedDownload := by
  simp [afterDownload, hc]

theorem afterDownload_none_eq {pre log} {env : Env} {code : Int} (hc : code = 0)
    (hp : pick_best_output_file env.entries = none) :
    afterDownload pre env code log =
      failReport pre noFileNote env.editNoFileOk env.replyNoFileOk Outcome.noOutput := by
  simp [afterDownload, hc, hp]

theorem afterDownload_some_eq {pre log} {env : Env} {code : Int} {e : Entry} (hc : code = 0)
    (hp : pick_best_output_file env.entries = some e) :
    afterDownload pre env code log = afterPick pre e env log := by
  simp [afterDownload, hc, hp]

theorem handle_message_nomatch_eq {env : Env} (h1 : env.hasText = true)
    (h2 : env.chatType = "private") (h3 : matchedUrl env.text = none) :
    handle_message env = ([Event.replyText rejectionText],
      if env.rejectReplyOk then Outcome.rejected else Outcome.crashed) := by
  simp [handle_message, h1, h2, h3]

theorem handle_message_nostatus_eq {env : Env} {url : String} (h1 : env.hasText = true)
    (h2 : env.chatType = "private") (h3 : matchedUrl env.text = some url)
    (h4 : env.statusCreateOk = false) :
    handle_message env = ([Event.createStatus analyzingText], Outcome.crashed) := by
  simp [handle_message, h1, h2, h3, h4]

theorem handle_message_notyping_eq {env : Env} {url : String} (h1 : env.hasText = true)
    (h2 : env.chatType = "private") (h3 : matchedUrl env.text = some url)
    (h4 : env.statusCreateOk = true) (h5 : env.typingOk = false) :
    handle_message env =
      ([Event.createStatus analyzingText, Event.chatAction "typing"], Outcome.crashed) := by
  simp [handle_message, h1, h2, h3, h4, h5]

theorem handle_message_match_eq {env : Env} {url : String} (h1 : env.hasText = true)
    (h2 : env.chatType = "private") (h3 : matchedUrl env.text = some url)
    (h4 : env.statusCreateOk = true) (h5 : env.typingOk = true) :
    handle_message env =
      afterDownload (sessionPre url ++ (if env.timesOut then [Event.killProc] else []))
        env (run_yt_dlp env.timesOut env.exitCode env.log).2.1
        (run_yt_dlp env.timesOut env.exitCode env.log).2.2 := by
  cases ht : env.timesOut <;>
    simp [handle_message, h1, h2, h3, h4, h5, ht, run_yt_dlp, sessionPre]

theorem handle_message_ok_eq {env : Env} {url : String} {e : Entry} (h1 : env.hasText = true)
    (h2 : env.chatType = "private") (h3 : matchedUrl env.text = some url)
    (h4 : env.statusCreateOk = true) (h5 : env.typingOk = true)
    (h6 : env.timesOut = false) (h7 : env.exitCode = 0)
    (h8 : pick_best_output_file env.entries = some e) :
    handle_message env = afterPick (sessionPre url) e env env.log := by
  rw [handle_message_match_eq h1 h2 h3 h4 h5, h6]
  simp only [run_yt_dlp, if_false, Bool.false_eq_true, ite_false, List.append_nil]
  exact afterDownload_some_eq h7 h8

/-!
Claim theorems.
-/

/-- Priority tier of an entry as realised by the code's glob cascade:
0 for `*.mp4` matches, 1 for `*.mkv` matches, 2 for everything else. -/
def tier (e : Entry) : Nat :=
  if globSuffix ".mp4" e then 0 else if globSuffix ".mkv" e then 1 else 2

/-- The size key the code uses within an entry's tier: raw `st_size` in
the `.mp4`/`.mkv` tiers, `st_size`-for-files-else-0 in the fallback tier. -/
def rankKey (e : Entry) : Nat := if tier e = 2 then anyKey e else mp4Key e

/-- C2: the artifact selector ranks candidates first by container-extension
priority tier (mp4, then mkv, then anything else) and by descending size
within the same tier: any selected entry is a workspace entry of a
minimal occupied tier, of maximal size key within that tier.  In
particular, on candidates a.webm (10 MB), a.mp4 (8 MB), b.mp4 (12 MB) it
selects b.mp4, the largest file of the highest-priority extension, even
though a.webm is larger. -/
theorem c2_selector_ranking :
    (∀ (entries : List Entry) (e : Entry), pick_best_output_file entries = some e →
      e ∈ entries ∧
        ∀ e' ∈ entries, tier e < tier e' ∨ (tier e = tier e' ∧ rankKey e' ≤ rankKey e)) ∧
    pick_best_output_file
        [⟨"a.webm", 10000000, true⟩, ⟨"a.mp4", 8000000, true⟩, ⟨"b.mp4", 12000000, true⟩]
      = some ⟨"b.mp4", 12000000, true⟩ := by
  constructor
  · intro entries e hpick
    unfold pick_best_output_file at hpick
    revert hpick
    cases hmp4 : firstMax mp4Key (entries.filter (globSuffix ".mp4")) with
    | some m =>
      intro hpick
      simp only [Option.some.injEq] at hpick
      subst hpick
      obtain ⟨hin, hglob⟩ := List.mem_filter.mp (firstMax_mem hmp4)
      have htier : tier m = 0 := by simp [tier, hglob]
      refine ⟨hin, ?_⟩
      intro e' he'
      by_cases hg' : globSuffix ".mp4" e' = true
      · right
        have htier' : tier e' = 0 := by simp [tier, hg']
        refine ⟨by rw [htier, htier'], ?_⟩
        have hle := firstMax_le hmp4 e' (List.mem_filter.mpr ⟨he', hg'⟩)
        simpa [rankKey, htier, htier'] using hle
      · left
        rw [htier]
        by_cases hk : globSuffix ".mkv" e' = true <;> norm_num [tier, hg', hk]
    | none =>
      have hmp4nil : entries.filter (globSuffix ".mp4") = [] := firstMax_eq_none.mp hmp4
      cases hmkv : firstMax mp4Key (entries.filter (globSuffix ".mkv")) with
      | some m =>
        intro hpick
        simp only [Option.some.injEq] at hpick
        subst hpick
        obtain ⟨hin, hglob⟩ := List.mem_filter.mp (firstMax_mem hmkv)
        have hnotmp4 : ¬globSuffix ".mp4" m = true :=
          (List.filter_eq_nil_iff.mp hmp4nil) m hin
        have htier : tier m = 1 := by simp [tier, hnotmp4, hglob]
        refine ⟨hin, ?_⟩
        intro e' he'
        have hnotmp4' : ¬globSuffix ".mp4" e' = true :=
          (List.filter_eq_nil_iff.mp hmp4nil) e' he'
        by_cases hg' : globSuffix ".mkv" e' = true
        · right
          have htier' : tier e' = 1 := by simp [tier, hnotmp4', hg']
          refine ⟨by rw [htier, htier'], ?_⟩
          have hle := firstMax_le hmkv e' (List.mem_filter.mpr ⟨he', hg'⟩)
          simpa [rankKey, htier, htier'] using hle
        · left
          have htier' : tier e' = 2 := by simp [tier, hnotmp4', hg']
          rw [htier, htier']
          norm_num
      | none =>
        have hmkvnil : entries.filter (globSuffix ".mkv") = [] := firstMax_eq_none.mp hmkv
        intro hpick
        have hin := firstMax_mem hpick
        have hnotmp4 : ¬globSuffix ".mp4" e = true :=
          (List.filter_eq_nil_iff.mp hmp4nil) e hin
        have hnotmkv : ¬globSuffix ".mkv" e = true :=
          (List.filter_eq_nil_iff.mp hmkvnil) e hin
        have htier : tier e = 2 := by simp [tier, hnotmp4, hnotmkv]
        refine ⟨hin, ?_⟩
        intro e' he'
        right
        have hnotmp4' : ¬globSuffix ".mp4" e' = true :=
          (List.filter_eq_nil_iff.mp hmp4nil) e' he'
        have hnotmkv' : ¬globSuffix ".mkv" e' = true :=
          (List.filter_eq_nil_iff.mp hmkvnil) e' he'
        have htier' : tier e' = 2 := by simp [tier, hnotmp4', hnotmkv']
        refine ⟨by rw [htier, htier'], ?_⟩
        have hle := firstMax_le hpick e' he'
        simpa [rankKey, htier, htier'] using hle
  · decide

/-- C2 witness: the general ranking theorem applied to the concrete
candidate set of the claim, at the selected entry b.mp4 and the larger
lower-tier candidate a.webm. -/
theorem c2_selector_ranking_witness :
    (⟨"b.mp4", 12000000, true⟩ : Entry) ∈
        [(⟨"a.webm", 10000000, true⟩ : Entry), ⟨"a.mp4", 8000000, true⟩,
          ⟨"b.mp4", 12000000, true⟩] ∧
      (tier ⟨"b.mp4", 12000000, true⟩ < tier ⟨"a.webm", 10000000, true⟩ ∨
        (tier ⟨"b.mp4", 12000000, true⟩ = tier ⟨"a.webm", 10000000, true⟩ ∧
          rankKey ⟨"a.webm", 10000000, true⟩ ≤ rankKey ⟨"b.mp4", 12000000, true⟩)) := by
  have h := c2_selector_ranking.1
    [⟨"a.webm", 10000000, true⟩, ⟨"a.mp4", 8000000, true⟩, ⟨"b.mp4", 12000000, true⟩]
    ⟨"b.mp4", 12000000, true⟩ (by decide)
  exact ⟨h.1, h.2 ⟨"a.webm", 10000000, true⟩ (by decide)⟩

/-- C10 (amended): when no entry *name* ends in `.mp4` or `.mkv`
(name-based, not file-based: a directory named `x.mp4` is caught by the
earlier glob tiers even though the workspace holds no `.mp4` file — see
the counterexample), the selector returns `none` exactly when the
workspace has no entries at all, and otherwise returns an entry
maximising the size key that ranks non-regular-files as 0, so a
non-media sidecar file or even a subdirectory can be returned. -/
theorem c10_fallback_selection (entries : List Entry)
    (hmp4 : entries.filter (globSuffix ".mp4") = [])
    (hmkv : entries.filter (globSuffix ".mkv") = []) :
    (pick_best_output_file entries = none ↔ entries = []) ∧
      ∀ e, pick_best_output_file entries = some e →
        e ∈ entries ∧ ∀ e' ∈ entries, anyKey e' ≤ anyKey e := by
  have hpick : pick_best_output_file entries = firstMax anyKey entries := by
    unfold pick_best_output_file
    rw [hmp4, hmkv]
    rfl
  constructor
  · rw [hpick]; exact firstMax_eq_none
  · intro e he
    rw [hpick] at he
    exact ⟨firstMax_mem he, fun e' he' => firstMax_le he e' he'⟩

/-- C10 counterexample: a workspace with no `.mp4` and no `.mkv` *file*
can still hit the `.mp4` glob tier through a *directory* named `x.mp4`
(globs match names, not file types), which the selector returns even
though the claim demands the largest entry — here `a.avi`, since the
directory ranks at size 0 under the claimed non-files-as-0 key. -/
theorem c10_fallback_counterexample :
    pick_best_output_file [⟨"x.mp4", 4096, false⟩, ⟨"a.avi", 100000000, true⟩]
        = some ⟨"x.mp4", 4096, false⟩ ∧
      (⟨"x.mp4", 4096, false⟩ : Entry).isFile = false ∧
      anyKey ⟨"x.mp4", 4096, false⟩ < anyKey ⟨"a.avi", 100000000, true⟩ :=
  ⟨by decide, rfl, by decide⟩

/-- C10 witness: the amended theorem applied to a workspace holding only
`a.avi` and the larger `b.bin`. -/
theorem c10_fallback_selection_witness :
    pick_best_output_file [⟨"a.avi", 100, true⟩, ⟨"b.bin", 200, true⟩]
        = some ⟨"b.bin", 200, true⟩ ∧
      anyKey ⟨"a.avi", 100, true⟩ ≤ anyKey ⟨"b.bin", 200, true⟩ := by
  have h := (c10_fallback_selection [⟨"a.avi", 100, true⟩, ⟨"b.bin", 200, true⟩]
      (by decide) (by decide)).2 ⟨"b.bin", 200, true⟩ (by decide)
  exact ⟨by decide, h.2 ⟨"a.avi", 100, true⟩ (by decide)⟩

/-- Concrete all-succeeding session environment: a private message that
is exactly a YouTube link, a clean download leaving one 1000-byte
`video.mp4` in the workspace, and every messaging call succeeding. -/
def envBase : Env :=
  { hasText := true, chatType := "private", text := "https://youtu.be/abc",
    rejectReplyOk := true, statusCreateOk := true, typingOk := true,
    timesOut := false, exitCode := 0, log := "LOG",
    entries := [⟨"video.mp4", 1000, true⟩],
    editFailNoteOk := true, replyFailNoteOk := true,
    editNoFileOk := true, replyNoFileOk := true,
    editTooLargeOk := true, replyTooLargeOk := true,
    uploadActionOk := true, videoOk := true, documentOk := true,
    uploadErrText := "boom", editUploadFailOk := true, replyUploadFailOk := true }

/-- C7: a private text message that does not match the URL pattern gets
exactly the one rejection reply and nothing else — the full effect trace
is the single reply attempt, so no workspace is created, no status
message is created, and no other message is sent; the outcome is
`rejected` (or the propagated exception when the reply itself raises). -/
theorem c7_rejection_only (env : Env) (h1 : env.hasText = true)
    (h2 : env.chatType = "private") (h3 : matchedUrl env.text = none) :
    handle_message env = ([Event.replyText rejectionText],
      if env.rejectReplyOk then Outcome.rejected else Outcome.crashed) :=
  handle_message_nomatch_eq h1 h2 h3

/-- C7 witness: the theorem applied to the non-matching text "hello". -/
theorem c7_rejection_only_witness :
    handle_message { envBase with text := "hello" } =
      ([Event.replyText rejectionText], Outcome.rejected) := by
  have h := c7_rejection_only { envBase with text := "hello" } rfl rfl (by decide)
  simpa using h

/-- The session environment exhibiting the cleanup leak: everything
succeeds up to the size check, then the unguarded
`send_chat_action(UPLOAD_VIDEO)` call (app.py line 172) raises. -/
def envLeak : Env := { envBase with uploadActionOk := false }

/-- C1 (code bug): the claim that the workspace is removed on every
terminal path fails on the code.  In `envLeak` the session creates its
workspace and reaches the upload stage, but the transport error raised
by the unguarded `send_chat_action` call at app.py line 172 propagates
out of `handle_message` before any cleanup call is reached (the final
cleanup block at lines 196-200 is not in a `finally`), so the workspace
is never removed.  The same happens on every failure path whose status
edit *and* fallback reply both raise (lines 139-144, 149-154, 159-170,
191-194).  The spec's §4.1 "guaranteed release on all exit paths" is
clearly the intent — the code calls cleanup on each explicit path and
even wraps the last call in try/except — so this is a slip in the code,
not a deliberate behaviour. -/
theorem c1_workspace_leak :
    Event.wsCreate ∈ (handle_message envLeak).1 ∧
      Event.wsCleanup ∉ (handle_message envLeak).1 ∧
      (handle_message envLeak).2 = Outcome.crashed :=
  ⟨by decide, by decide, by decide⟩

theorem failReport_cases (pre : List Event) (note : String) (eo ro : Bool) (oc : Outcome) :
    failReport pre note eo ro oc = (pre ++ [Event.editStatus note, Event.wsCleanup], oc) ∨
      failReport pre note eo ro oc =
        (pre ++ [Event.editStatus note, Event.replyText note, Event.wsCleanup], oc) ∨
      failReport pre note eo ro oc =
        (pre ++ [Event.editStatus note, Event.replyText note], Outcome.crashed) := by
  unfold failReport
  split_ifs <;> simp

/-- C3: the size guard rejects exactly the artifacts whose size strictly
exceeds `TELEGRAM_MAX_BYTES`: the session proceeds to the upload stage
(the `upload_video` chat action appears in the trace) iff the selected
size is at most the ceiling — so the boundary case of equality proceeds
to upload (see the witness) — and on rejection no upload is ever
attempted and, provided reporting the rejection does not itself raise,
the session terminates as `tooLarge`. -/
theorem c3_size_guard (env : Env) (url : String) (e : Entry)
    (h1 : env.hasText = true) (h2 : env.chatType = "private")
    (h3 : matchedUrl env.text = some url)
    (h4 : env.statusCreateOk = true) (h5 : env.typingOk = true)
    (h6 : env.timesOut = false) (h7 : env.exitCode = 0)
    (h8 : pick_best_output_file env.entries = some e) :
    ((Event.chatAction "upload_video" ∈ (handle_message env).1) ↔
        e.size ≤ TELEGRAM_MAX_BYTES) ∧
      (TELEGRAM_MAX_BYTES < e.size →
        (handle_message env).1.filter isUpload = [] ∧
          (env.editTooLargeOk = true ∨ env.replyTooLargeOk = true →
            (handle_message env).2 = Outcome.tooLarge)) := by
  rw [handle_message_ok_eq h1 h2 h3 h4 h5 h6 h7 h8]
  by_cases hs : e.size > TELEGRAM_MAX_BYTES
  · constructor
    · rw [afterPick_large_eq hs]
      rcases failReport_cases (sessionPre url) (tooLargeNote e.size)
          env.editTooLargeOk env.replyTooLargeOk Outcome.tooLarge with h | h | h <;>
        rw [h] <;>
        simp [sessionPre] <;> omega
    · intro _
      constructor
      · rw [afterPick_large_eq hs]
        rcases failReport_cases (sessionPre url) (tooLargeNote e.size)
            env.editTooLargeOk env.replyTooLargeOk Outcome.tooLarge with h | h | h <;>
          rw [h] <;> simp [sessionPre, isUpload]
      · intro hok
        rw [afterPick_large_eq hs]
        rcases hok with hok | hok
        · rw [failReport_edit_eq hok]
        · cases heo : env.editTooLargeOk
          · rw [failReport_reply_eq rfl hok]
          · rw [failReport_edit_eq rfl]
  · have hle : e.size ≤ TELEGRAM_MAX_BYTES := Nat.le_of_not_lt hs
    constructor
    · cases hu : env.uploadActionOk
      · rw [afterPick_crash_eq hs hu]
        simp [hle]
      · rw [afterPick_fits_eq hs hu]
        rcases hv : env.videoOk with _ | _
        · rcases hd : env.documentOk with _ | _
          · rw [deliver_fail_eq hv hd]
            rcases failReport_cases _ (uploadFailNote env.uploadErrText env.log)
                env.editUploadFailOk env.replyUploadFailOk Outcome.uploadFailed with h | h | h <;>
              rw [h] <;> simp [hle]
          · rw [deliver_doc_eq hv hd]; simp [hle]
        · rw [deliver_video_eq hv]; simp [hle]
    · intro hgt
      exact absurd hgt hs

/-- C3 witness: the boundary case — an artifact of exactly
`TELEGRAM_MAX_BYTES` bytes is accepted and the session proceeds to the
upload stage. -/
theorem c3_size_guard_witness :
    Event.chatAction "upload_video" ∈
      (handle_message { envBase with entries := [⟨"video.mp4", 2000000000, true⟩] }).1 := by
  have h := c3_size_guard { envBase with entries := [⟨"video.mp4", 2000000000, true⟩] }
    "https://youtu.be/abc" ⟨"video.mp4", 2000000000, true⟩
    rfl rfl (by decide) rfl rfl rfl rfl (by decide)
  exact h.1.mpr (by decide)

theorem failReport_filter_isUpload (pre : List Event) (note : String) (eo ro : Bool)
    (oc : Outcome) :
    (failReport pre note eo ro oc).1.filter isUpload = pre.filter isUpload := by
  rcases failReport_cases pre note eo ro oc with h | h | h <;> rw [h] <;>
    simp [isUpload]

/-- C4: the delivery always attempts the streaming-preferred video upload
first (it is the head of the upload attempts), the generic-document
upload of the same file with the same filename and caption is attempted
exactly when the video upload fails, and when the video upload fails but
the document upload succeeds the session still ends `doneDocument` with
exactly the two upload attempts, in that order. -/
theorem c4_upload_fallback (env : Env) (url : String) (e : Entry)
    (h1 : env.hasText = true) (h2 : env.chatType = "private")
    (h3 : matchedUrl env.text = some url)
    (h4 : env.statusCreateOk = true) (h5 : env.typingOk = true)
    (h6 : env.timesOut = false) (h7 : env.exitCode = 0)
    (h8 : pick_best_output_file env.entries = some e)
    (h9 : e.size ≤ TELEGRAM_MAX_BYTES) (h10 : env.uploadActionOk = true) :
    (((handle_message env).1.filter isUpload).head? =
        some (Event.sendVideo e.name captionText)) ∧
      (env.videoOk = true →
        (handle_message env).1.filter isUpload = [Event.sendVideo e.name captionText] ∧
          (handle_message env).2 = Outcome.doneVideo) ∧
      (env.videoOk = false →
        (handle_message env).1.filter isUpload =
            [Event.sendVideo e.name captionText, Event.sendDocument e.name captionText] ∧
          (env.documentOk = true → (handle_message env).2 = Outcome.doneDocument)) := by
  rw [handle_message_ok_eq h1 h2 h3 h4 h5 h6 h7 h8,
    afterPick_fits_eq (by omega) h10]
  cases hv : env.videoOk with
  | true =>
    rw [deliver_video_eq hv]
    refine ⟨by simp [sessionPre, isUpload], fun _ => ⟨by simp [sessionPre, isUpload], rfl⟩, ?_⟩
    intro hfalse
    simp at hfalse
  | false =>
    cases hd : env.documentOk with
    | true =>
      rw [deliver_doc_eq hv hd]
      refine ⟨by simp [sessionPre, isUpload], ?_, ?_⟩
      · intro htrue; simp at htrue
      · exact fun _ => ⟨by simp [sessionPre, isUpload], fun _ => rfl⟩
    | false =>
      rw [deliver_fail_eq hv hd]
      refine ⟨?_, ?_, ?_⟩
      · rw [failReport_filter_isUpload]
        simp [sessionPre, isUpload]
      · intro htrue; simp at htrue
      · intro _
        refine ⟨by rw [failReport_filter_isUpload]; simp [sessionPre, isUpload], ?_⟩
        intro hdt
        simp at hdt

/-- C4 witness: video upload fails, document upload succeeds — the trace
holds exactly the two upload attempts in order and the session ends
`doneDocument`. -/
theorem c4_upload_fallback_witness :
    (handle_message { envBase with videoOk := false }).1.filter isUpload =
        [Event.sendVideo "video.mp4" captionText,
          Event.sendDocument "video.mp4" captionText] ∧
      (handle_message { envBase with videoOk := false }).2 = Outcome.doneDocument := by
  have h := c4_upload_fallback { envBase with videoOk := false } "https://youtu.be/abc"
    ⟨"video.mp4", 1000, true⟩ rfl rfl (by decide) rfl rfl rfl rfl (by decide) (by decide) rfl
  exact ⟨(h.2.2 rfl).1, (h.2.2 rfl).2 rfl⟩

/-- Boolean suffix test on strings (used to compare the actual caption
against the caption format the spec claims). -/
def endsWithStr (s t : String) : Bool := t.data.isSuffixOf s.data

/-- The caption format the spec claims for delivered payloads:
"<filename> (<human-size>)".  This definition follows the spec's words,
for comparison with the code's actual caption. -/
def specCaption (filename humanSize : String) : String :=
  filename ++ " (" ++ humanSize ++ ")"

theorem endsWithStr_specCaption (fn hs : String) :
    endsWithStr (specCaption fn hs) ")" = true := by
  unfold endsWithStr specCaption
  rw [List.isSuffixOf_iff_suffix]
  refine ⟨fn.data ++ " (".data ++ hs.data, ?_⟩
  simp [String.data_append]

/-- C5 (amended): every upload attempt of a session carries the
artifact's filename as the payload filename and the *fixed* caption
"Here you go 🎬"; the caption is not of the claimed form
"<filename> (<human-size>)" — every string of that form ends in a
closing parenthesis and the actual caption does not. -/
theorem c5_caption_amended (env : Env) (url : String) (e : Entry)
    (h1 : env.hasText = true) (h2 : env.chatType = "private")
    (h3 : matchedUrl env.text = some url)
    (h4 : env.statusCreateOk = true) (h5 : env.typingOk = true)
    (h6 : env.timesOut = false) (h7 : env.exitCode = 0)
    (h8 : pick_best_output_file env.entries = some e)
    (h9 : e.size ≤ TELEGRAM_MAX_BYTES) (h10 : env.uploadActionOk = true) :
    (∀ ev ∈ (handle_message env).1, isUpload ev = true →
        ev = Event.sendVideo e.name captionText ∨
          ev = Event.sendDocument e.name captionText) ∧
      (∀ fn hs, endsWithStr (specCaption fn hs) ")" = true) ∧
      endsWithStr captionText ")" = false := by
  have hfilter : (handle_message env).1.filter isUpload =
        [Event.sendVideo e.name captionText] ∨
      (handle_message env).1.filter isUpload =
        [Event.sendVideo e.name captionText, Event.sendDocument e.name captionText] := by
    rw [handle_message_ok_eq h1 h2 h3 h4 h5 h6 h7 h8,
      afterPick_fits_eq (by omega) h10]
    cases hv : env.videoOk with
    | true =>
      left
      rw [deliver_video_eq hv]
      simp [sessionPre, isUpload]
    | false =>
      right
      cases hd : env.documentOk with
      | true =>
        rw [deliver_doc_eq hv hd]
        simp [sessionPre, isUpload]
      | false =>
        rw [deliver_fail_eq hv hd, failReport_filter_isUpload]
        simp [sessionPre, isUpload]
  refine ⟨?_, endsWithStr_specCaption, by decide⟩
  intro ev hev hup
  have hmem : ev ∈ (handle_message env).1.filter isUpload :=
    List.mem_filter.mpr ⟨hev, hup⟩
  rcases hfilter with h | h <;> rw [h] at hmem <;> simp at hmem
  · exact Or.inl hmem
  · exact hmem

/-- C5 counterexample: in the all-succeeding session the video payload
goes out with caption "Here you go 🎬" — not of the claimed form
"<filename> (<human-size>)": every string of that form ends in ")"
(third conjunct instantiates the format at this artifact's filename and
size), and the actual caption does not (second conjunct). -/
theorem c5_caption_counterexample :
    (handle_message envBase).1.filter isUpload
        = [Event.sendVideo "video.mp4" captionText] ∧
      endsWithStr captionText ")" = false ∧
      endsWithStr (specCaption "video.mp4" (humanMB 1000)) ")" = true :=
  ⟨by decide, by decide, by decide⟩

/-- C5 witness: the amended theorem applied to the all-succeeding
session. -/
theorem c5_caption_amended_witness :
    endsWithStr (specCaption "video.mp4" "0.0 MB") ")" = true ∧
      endsWithStr captionText ")" = false := by
  have h := c5_caption_amended envBase "https://youtu.be/abc" ⟨"video.mp4", 1000, true⟩
    rfl rfl (by decide) rfl rfl rfl rfl (by decide) (by decide) rfl
  exact ⟨h.2.1 "video.mp4" "0.0 MB", h.2.2⟩

/-- C6 (amended): when the extraction call exceeds its timeout, the
subprocess is killed and the call returns the timeout-classified failure
(exit code 124 with log "yt-dlp timed out"); the session takes the
failed-download path with no upload ever attempted, and — provided
reporting the failure does not itself raise — cleans up its workspace
and terminates as `failedDownload`.  The proviso is forced by the code:
if both the status edit and the fallback reply raise, the exception
propagates before the cleanup call (app.py lines 139-144) and the
workspace is not released (last conjunct; see the counterexample). -/
theorem c6_timeout_kill (env : Env) (url : String)
    (h1 : env.hasText = true) (h2 : env.chatType = "private")
    (h3 : matchedUrl env.text = some url)
    (h4 : env.statusCreateOk = true) (h5 : env.typingOk = true)
    (ht : env.timesOut = true) :
    run_yt_dlp env.timesOut env.exitCode env.log = (true, 124, "yt-dlp timed out") ∧
      Event.killProc ∈ (handle_message env).1 ∧
      (handle_message env).1.filter isUpload = [] ∧
      (env.editFailNoteOk = true ∨ env.replyFailNoteOk = true →
        Event.wsCleanup ∈ (handle_message env).1 ∧
          (handle_message env).2 = Outcome.failedDownload) ∧
      (env.editFailNoteOk = false → env.replyFailNoteOk = false →
        Event.wsCleanup ∉ (handle_message env).1 ∧
          (handle_message env).2 = Outcome.crashed) := by
  have hrun : run_yt_dlp env.timesOut env.exitCode env.log =
      (true, 124, "yt-dlp timed out") := by
    rw [ht]; rfl
  have hm : handle_message env =
      afterDownload (sessionPre url ++ [Event.killProc]) env 124 "yt-dlp timed out" := by
    rw [handle_message_match_eq h1 h2 h3 h4 h5, ht]
    rfl
  rw [hm, afterDownload_fail_eq (by norm_num)]
  refine ⟨hrun, ?_, ?_, ?_, ?_⟩
  · rcases failReport_cases (sessionPre url ++ [Event.killProc])
        (errNote "yt-dlp timed out") env.editFailNoteOk env.replyFailNoteOk
        Outcome.failedDownload with h | h | h <;>
      rw [h] <;> simp [sessionPre]
  · rw [failReport_filter_isUpload]
    simp [sessionPre, isUpload]
  · intro hok
    rcases hok with hok | hok
    · rw [failReport_edit_eq hok]
      exact ⟨by simp, rfl⟩
    · cases heo : env.editFailNoteOk with
      | true =>
        rw [failReport_edit_eq rfl]
        exact ⟨by simp, rfl⟩
      | false =>
        rw [failReport_reply_eq rfl hok]
        exact ⟨by simp, rfl⟩
  · intro heo hro
    rw [failReport_crash_eq heo hro]
    exact ⟨by simp [sessionPre], rfl⟩

/-- Timed-out session whose status edit and fallback reply both raise. -/
def envTimeoutCrash : Env :=
  { envBase with timesOut := true, editFailNoteOk := false, replyFailNoteOk := false }

/-- C6 counterexample: the claim "the session … releases its workspace"
fails as stated: in this timed-out session whose status edit and
fallback reply both raise, the subprocess is killed and the workspace
created, but no cleanup ever happens — the exception propagates before
the cleanup call. -/
theorem c6_timeout_counterexample :
    Event.killProc ∈ (handle_message envTimeoutCrash).1 ∧
      Event.wsCreate ∈ (handle_message envTimeoutCrash).1 ∧
      Event.wsCleanup ∉ (handle_message envTimeoutCrash).1 :=
  ⟨by decide, by decide, by decide⟩

/-- C6 witness: a timed-out session whose failure report succeeds: the
subprocess is killed, the workspace is cleaned up, and the session ends
`failedDownload`. -/
theorem c6_timeout_kill_witness :
    Event.killProc ∈ (handle_message { envBase with timesOut := true }).1 ∧
      Event.wsCleanup ∈ (handle_message { envBase with timesOut := true }).1 ∧
      (handle_message { envBase with timesOut := true }).2 = Outcome.failedDownload := by
  have h := c6_timeout_kill { envBase with timesOut := true } "https://youtu.be/abc"
    rfl rfl (by decide) rfl rfl rfl
  exact ⟨h.2.1, (h.2.2.2.1 (Or.inl rfl)).1, (h.2.2.2.1 (Or.inl rfl)).2⟩

theorem failReport_status (pre : List Event) (note : String) (eo ro : Bool) (oc : Outcome)
    (hc : (pre.filter isCreate).length = 1)
    (hr : ∀ t, Event.replyText t ∉ pre) :
    (((failReport pre note eo ro oc).1.filter isCreate).length = 1) ∧
      ∀ t, Event.replyText t ∈ (failReport pre note eo ro oc).1 →
        Event.editStatus t ∈ (failReport pre note eo ro oc).1 := by
  rcases failReport_cases pre note eo ro oc with h | h | h <;> rw [h]
  · refine ⟨by simp [isCreate, hc], ?_⟩
    intro t htm
    rcases List.mem_append.mp htm with hin | hin
    · exact absurd hin (hr t)
    · simp at hin
  · refine ⟨by simp [isCreate, hc], ?_⟩
    intro t htm
    rcases List.mem_append.mp htm with hin | hin
    · exact absurd hin (hr t)
    · simp at hin
      subst hin
      simp
  · refine ⟨by simp [isCreate, hc], ?_⟩
    intro t htm
    rcases List.mem_append.mp htm with hin | hin
    · exact absurd hin (hr t)
    · simp at hin
      subst hin
      simp

theorem deliver_status (pre : List Event) (e : Entry) (env : Env) (log : String)
    (hc : (pre.filter isCreate).length = 1)
    (hr : ∀ t, Event.replyText t ∉ pre) :
    (((deliver pre e env log).1.filter isCreate).length = 1) ∧
      ∀ t, Event.replyText t ∈ (deliver pre e env log).1 →
        Event.editStatus t ∈ (deliver pre e env log).1 := by
  cases hv : env.videoOk with
  | true =>
    rw [deliver_video_eq hv]
    refine ⟨by simp [isCreate, hc], ?_⟩
    intro t htm
    rcases List.mem_append.mp htm with hin | hin
    · exact absurd hin (hr t)
    · simp at hin
  | false =>
    cases hd : env.documentOk with
    | true =>
      rw [deliver_doc_eq hv hd]
      refine ⟨by simp [isCreate, hc], ?_⟩
      intro t htm
      rcases List.mem_append.mp htm with hin | hin
      · exact absurd hin (hr t)
      · simp at hin
    | false =>
      rw [deliver_fail_eq hv hd]
      apply failReport_status
      · simp [isCreate, hc]
      · intro t htm
        rcases List.mem_append.mp htm with hin | hin
        · exact absurd hin (hr t)
        · simp at hin

theorem afterPick_status (pre : List Event) (e : Entry) (env : Env) (log : String)
    (hc : (pre.filter isCreate).length = 1)
    (hr : ∀ t, Event.replyText t ∉ pre) :
    (((afterPick pre e env log).1.filter isCreate).length = 1) ∧
      ∀ t, Event.replyText t ∈ (afterPick pre e env log).1 →
        Event.editStatus t ∈ (afterPick pre e env log).1 := by
  by_cases hs : e.size > TELEGRAM_MAX_BYTES
  · rw [afterPick_large_eq hs]
    exact failReport_status _ _ _ _ _ hc hr
  · cases hu : env.uploadActionOk with
    | false =>
      rw [afterPick_crash_eq hs hu]
      refine ⟨by simp [isCreate, hc], ?_⟩
      intro t htm
      rcases List.mem_append.mp htm with hin | hin
      · exact absurd hin (hr t)
      · simp at hin
    | true =>
      rw [afterPick_fits_eq hs hu]
      apply deliver_status
      · simp [isCreate, hc]
      · intro t htm
        rcases List.mem_append.mp htm with hin | hin
        · exact absurd hin (hr t)
        · simp at hin

theorem afterDownload_status (pre : List Event) (env : Env) (code : Int) (log : String)
    (hc : (pre.filter isCreate).length = 1)
    (hr : ∀ t, Event.replyText t ∉ pre) :
    (((afterDownload pre env code log).1.filter isCreate).length = 1) ∧
      ∀ t, Event.replyText t ∈ (afterDownload pre env code log).1 →
        Event.editStatus t ∈ (afterDownload pre env code log).1 := by
  by_cases hcode : code = 0
  · cases hp : pick_best_output_file env.entries with
    | none =>
      rw [afterDownload_none_eq hcode hp]
      exact failReport_status _ _ _ _ _ hc hr
    | some e =>
      rw [afterDownload_some_eq hcode hp]
      exact afterPick_status _ _ _ _ hc hr
  · rw [afterDownload_fail_eq hcode]
    exact failReport_status _ _ _ _ _ hc hr

/-- C8 (amended): every URL-matching session creates exactly one status
message, and all subsequent reporting is done against it — with the one
exception the code's try/except structure forces: whenever a failure
description is delivered as a plain reply message, that reply carries the
very text whose status *edit* was attempted first (and raised), i.e.
additional messages appear only as the fallback of a failed edit of the
single status message (the second conjunct; see the counterexample for
the claim as stated). -/
theorem c8_single_status (env : Env) (url : String)
    (h1 : env.hasText = true) (h2 : env.chatType = "private")
    (h3 : matchedUrl env.text = some url) :
    (((handle_message env).1.filter isCreate).length = 1) ∧
      ∀ t, Event.replyText t ∈ (handle_message env).1 →
        Event.editStatus t ∈ (handle_message env).1 := by
  cases h4 : env.statusCreateOk with
  | false =>
    rw [handle_message_nostatus_eq h1 h2 h3 h4]
    exact ⟨by simp [isCreate], by intro t htm; simp at htm⟩
  | true =>
    cases h5 : env.typingOk with
    | false =>
      rw [handle_message_notyping_eq h1 h2 h3 h4 h5]
      exact ⟨by simp [isCreate], by intro t htm; simp at htm⟩
    | true =>
      rw [handle_message_match_eq h1 h2 h3 h4 h5]
      apply afterDownload_status
      · cases env.timesOut <;> simp [sessionPre, isCreate]
      · intro t
        cases env.timesOut <;> simp [sessionPre]

/-- Session whose download fails and whose status edit of the failure
note raises, so the note goes out as a fresh reply message. -/
def envEditFail : Env := { envBase with exitCode := 1, editFailNoteOk := false }

/-- C8 counterexample: the claim "never by sending an additional
message" fails on the code — in `envEditFail` the session has its one
status message *and* sends one additional plain reply (the failure
description), because the status edit raised and the code falls back to
`msg.reply_text` (app.py lines 141-142). -/
theorem c8_single_status_counterexample :
    ((handle_message envEditFail).1.filter isCreate).length = 1 ∧
      ((handle_message envEditFail).1.filter isReply).length = 1 :=
  ⟨by decide, by decide⟩

/-- C8 witness: the amended theorem applied to the all-succeeding
session. -/
theorem c8_single_status_witness :
    ((handle_message envBase).1.filter isCreate).length = 1 :=
  (c8_single_status envBase "https://youtu.be/abc" rfl rfl (by decide)).1

/-!
Correctness of the regex model for C9: any successful match consists
solely of non-whitespace characters and is maximal — the character that
follows it (when any) is whitespace.
-/

/-- A literal character is harmless for the whitespace argument when no
whitespace character case-folds onto it. -/
def litOk (l : Char) : Bool := !isSpaceChar l.toLower

/-- A run of `n` matched characters at the head of `cs`: nonempty, all
non-whitespace, and maximal (the next character, if any, is whitespace). -/
def goodRun (cs : List Char) (n : Nat) : Prop :=
  1 ≤ n ∧ ((cs.take n).all (fun c => !isSpaceChar c)) = true ∧
    (((cs.drop n).take 1).all isSpaceChar) = true

theorem space_toLower (c : Char) (h : isSpaceChar c = true) : c.toLower = c := by
  unfold isSpaceChar at h
  obtain ⟨x, hx, heq⟩ := List.any_eq_true.mp h
  rw [beq_iff_eq.mp heq]
  exact (by decide : ∀ x ∈ spaceChars, x.toLower = x) x hx

theorem idChar_not_space (c : Char) (h : isSpaceChar c = true) : idChar c = false := by
  unfold isSpaceChar at h
  obtain ⟨x, hx, heq⟩ := List.any_eq_true.mp h
  rw [beq_iff_eq.mp heq]
  exact (by decide : ∀ x ∈ spaceChars, idChar x = false) x hx

theorem consumed_nonspace {pre lit : List Char}
    (hfa : List.Forall₂ (fun c l => ciMatch l c = true) pre lit)
    (hok : lit.all litOk = true) :
    pre.all (fun c => !isSpaceChar c) = true := by
  induction hfa with
  | nil => rfl
  | @cons c l pre' lit' hcl htail ih =>
    simp only [List.all_cons, Bool.and_eq_true] at hok ⊢
    obtain ⟨hokl, hokr⟩ := hok
    refine ⟨?_, ih hokr⟩
    unfold ciMatch at hcl
    rw [Bool.or_eq_true] at hcl
    rcases hcl with hcl | hcl
    · have hcl' : c.toLower = l.toLower := beq_iff_eq.mp hcl
      cases hsp : isSpaceChar c with
      | false => rfl
      | true =>
        exfalso
        have hc := space_toLower c hsp
        have hls : isSpaceChar l.toLower = true := by rw [← hcl', hc]; exact hsp
        rw [litOk, hls] at hokl
        simp at hokl
    · rw [Bool.and_eq_true] at hcl
      rw [beq_iff_eq.mp hcl.2]
      decide

theorem stripCI_spec : ∀ (lit cs r : List Char), stripCI lit cs = some r →
    ∃ pre, cs = pre ++ r ∧ pre.length = lit.length ∧
      List.Forall₂ (fun c l => ciMatch l c = true) pre lit := by
  intro lit
  induction lit with
  | nil =>
    intro cs r h
    simp only [stripCI, Option.some.injEq] at h
    exact ⟨[], by simp [h], rfl, List.Forall₂.nil⟩
  | cons l ls ih =>
    intro cs r h
    cases cs with
    | nil => simp [stripCI] at h
    | cons c cs' =>
      simp only [stripCI] at h
      revert h
      by_cases hcl : ciMatch l c = true
      · intro h
        rw [if_pos hcl] at h
        obtain ⟨pre', hcs', hlen', hfa'⟩ := ih cs' r h
        exact ⟨c :: pre', by simp [hcs'], by simp [hlen'],
          List.Forall₂.cons hcl hfa'⟩
      · intro h
        rw [if_neg hcl] at h
        cases h

theorem goodRun_prepend (lit cs r : List Char) (n : Nat)
    (hs : stripCI lit cs = some r) (hok : lit.all litOk = true)
    (h : goodRun r n) : goodRun cs (lit.length + n) := by
  obtain ⟨pre, hcs, hlen, hfa⟩ := stripCI_spec lit cs r hs
  have hpre : pre.all (fun c => !isSpaceChar c) = true := consumed_nonspace hfa hok
  obtain ⟨h1, h2, h3⟩ := h
  subst hcs
  rw [← hlen]
  refine ⟨by omega, ?_, ?_⟩
  · rw [take_append_add, List.all_append, hpre, h2]
    rfl
  · rw [drop_append_add]
    exact h3

theorem idRun_goodRun {cs : List Char} {n : Nat} (h : idRun cs = some n) : goodRun cs n := by
  unfold idRun at h
  revert h
  cases cs with
  | nil => intro h; cases h
  | cons c rest =>
    intro h
    by_cases hid : idChar c = true
    · simp only [hid, if_true, Option.some.injEq] at h
      subst h
      have hpc : (!isSpaceChar c) = true := by
        cases hsp : isSpaceChar c with
        | false => rfl
        | true => rw [idChar_not_space c hsp] at hid; cases hid
      refine ⟨?_, ?_, ?_⟩
      · rw [List.takeWhile_cons, if_pos hpc]
        simp
      · rw [take_length_takeWhile]
        exact all_takeWhile _ _
      · rw [drop_length_takeWhile]
        simpa [Bool.not_not] using head_dropWhile (fun x => !isSpaceChar x) (c :: rest)
    · simp only [hid, if_false] at h
      cases h

theorem matchHost_goodRun {cs : List Char} {n : Nat} (h : matchHost cs = some n) :
    goodRun cs n := by
  unfold matchHost at h
  revert h
  cases hw : (stripCI "youtube.com/watch?v=".data cs).bind idRun with
  | some m =>
    intro h
    simp only [Option.some.injEq] at h
    subst h
    rcases Option.bind_eq_some.mp hw with ⟨r, hr, hm⟩
    exact goodRun_prepend _ cs r m hr (by decide) (idRun_goodRun hm)
  | none =>
    cases hb : (stripCI "youtu.be/".data cs).bind idRun with
    | some m =>
      intro h
      simp only [Option.some.injEq] at h
      subst h
      rcases Option.bind_eq_some.mp hb with ⟨r, hr, hm⟩
      exact goodRun_prepend _ cs r m hr (by decide) (idRun_goodRun hm)
    | none => intro h; cases h

theorem tryVariant_goodRun {scheme www cs : List Char} {n : Nat}
    (hsch : scheme.all litOk = true) (hwww : www.all litOk = true)
    (h : tryVariant scheme www cs = some n) : goodRun cs n := by
  unfold tryVariant at h
  rcases Option.bind_eq_some.mp h with ⟨r1, hr1, h2⟩
  rcases Option.bind_eq_some.mp h2 with ⟨r2, hr2, h3⟩
  rcases Option.map_eq_some'.mp h3 with ⟨m, hm, hn⟩
  subst hn
  have g2 := matchHost_goodRun hm
  have g1 := goodRun_prepend www r1 r2 m hr2 hwww g2
  have g0 := goodRun_prepend scheme cs r1 (www.length + m) hr1 hsch g1
  rw [Nat.add_assoc]
  exact g0

theorem orElse_some {α : Type} {a : Option α} {f : Unit → Option α} {x : α}
    (h : a.orElse f = some x) : a = some x ∨ (a = none ∧ f () = some x) := by
  cases a with
  | none => right; exact ⟨rfl, h⟩
  | some v => left; exact h

theorem matchAt_goodRun {cs : List Char} {n : Nat} (h : matchAt cs = some n) :
    goodRun cs n := by
  unfold matchAt at h
  rcases orElse_some h with h | ⟨-, h⟩
  · exact tryVariant_goodRun (by decide) (by decide) h
  rcases orElse_some h with h | ⟨-, h⟩
  · exact tryVariant_goodRun (by decide) (by decide) h
  rcases orElse_some h with h | ⟨-, h⟩
  · exact tryVariant_goodRun (by decide) (by decide) h
  rcases orElse_some h with h | ⟨-, h⟩
  · exact tryVariant_goodRun (by decide) (by decide) h
  rcases orElse_some h with h | ⟨-, h⟩
  · exact tryVariant_goodRun (by decide) (by decide) h
  exact tryVariant_goodRun (by decide) (by decide) h

theorem searchFrom_spec : ∀ (cs : List Char) (prev : Option Char) (pos p n : Nat),
    searchFrom prev cs pos = some (p, n) →
    ∃ k, p = pos + k ∧ matchAt (cs.drop k) = some n := by
  intro cs
  induction cs with
  | nil => intro prev pos p n h; simp [searchFrom] at h
  | cons c rest ih =>
    intro prev pos p n h
    rw [searchFrom] at h
    revert h
    cases hb : (if boundaryOk prev then matchAt (c :: rest) else none) with
    | some m =>
      intro h
      simp only [Option.some.injEq, Prod.mk.injEq] at h
      obtain ⟨hp, hn⟩ := h
      cases hbo : boundaryOk prev with
      | false => rw [hbo] at hb; simp at hb
      | true =>
        rw [hbo, if_pos rfl] at hb
        exact ⟨0, by omega, by rw [List.drop_zero, ← hn]; exact hb⟩
    | none =>
      intro h
      obtain ⟨k', hp, hm⟩ := ih (some c) (pos + 1) p n h
      exact ⟨k' + 1, by omega, by rw [List.drop_succ_cons]; exact hm⟩

theorem mem_failReport {x : Event} {pre : List Event} {note : String} {eo ro : Bool}
    {oc : Outcome} (hx : x ∈ pre) : x ∈ (failReport pre note eo ro oc).1 := by
  rcases failReport_cases pre note eo ro oc with h | h | h <;> rw [h] <;>
    exact List.mem_append_left _ hx

theorem mem_deliver {x : Event} {pre : List Event} {e : Entry} {env : Env} {log : String}
    (hx : x ∈ pre) : x ∈ (deliver pre e env log).1 := by
  cases hv : env.videoOk with
  | true =>
    rw [deliver_video_eq hv]
    exact List.mem_append_left _ hx
  | false =>
    cases hd : env.documentOk with
    | true =>
      rw [deliver_doc_eq hv hd]
      exact List.mem_append_left _ hx
    | false =>
      rw [deliver_fail_eq hv hd]
      exact mem_failReport (List.mem_append_left _ hx)

theorem mem_afterPick {x : Event} {pre : List Event} {e : Entry} {env : Env} {log : String}
    (hx : x ∈ pre) : x ∈ (afterPick pre e env log).1 := by
  by_cases hs : e.size > TELEGRAM_MAX_BYTES
  · rw [afterPick_large_eq hs]
    exact mem_failReport hx
  · cases hu : env.uploadActionOk with
    | false =>
      rw [afterPick_crash_eq hs hu]
      exact List.mem_append_left _ hx
    | true =>
      rw [afterPick_fits_eq hs hu]
      exact mem_deliver (List.mem_append_left _ hx)

theorem mem_afterDownload {x : Event} {pre : List Event} {env : Env} {code : Int}
    {log : String} (hx : x ∈ pre) : x ∈ (afterDownload pre env code log).1 := by
  by_cases hc : code = 0
  · cases hp : pick_best_output_file env.entries with
    | none =>
      rw [afterDownload_none_eq hc hp]
      exact mem_failReport hx
    | some e =>
      rw [afterDownload_some_eq hc hp]
      exact mem_afterPick hx
  · rw [afterDownload_fail_eq hc]
    exact mem_failReport hx

/-- C9: the pipeline is triggered iff the URL pattern matches some
substring of the message text — a non-matching text yields only the
rejection reply (first conjunct) and a matching one hands the engine
exactly the matched substring (second conjunct: the `download` effect
carries `url`, the `group(0)` of the search).  Every match is a maximal
non-whitespace run: it is nonempty, contains no whitespace, and the
character following it (when the text continues) is whitespace (third
conjunct).  The final conjunct shows a match strictly inside a longer
message, with the matched substring extending to the end of the
non-whitespace run. -/
theorem c9_url_match :
    (∀ env : Env, env.hasText = true → env.chatType = "private" →
      matchedUrl env.text = none →
        (handle_message env).1 = [Event.replyText rejectionText]) ∧
      (∀ (env : Env) (url : String), env.hasText = true → env.chatType = "private" →
        matchedUrl env.text = some url → env.statusCreateOk = true →
          env.typingOk = true → Event.download url ∈ (handle_message env).1) ∧
      (∀ (s : String) (p n : Nat), regexSearch s = some (p, n) →
        1 ≤ n ∧ (((s.data.drop p).take n).all (fun c => !isSpaceChar c)) = true ∧
          (((s.data.drop (p + n)).take 1).all isSpaceChar) = true) ∧
      matchedUrl "look https://youtu.be/abc now" = some "https://youtu.be/abc" := by
  refine ⟨?_, ?_, ?_, by decide⟩
  · intro env h1 h2 h3
    rw [handle_message_nomatch_eq h1 h2 h3]
  · intro env url h1 h2 h3 h4 h5
    rw [handle_message_match_eq h1 h2 h3 h4 h5]
    apply mem_afterDownload
    apply List.mem_append_left
    simp [sessionPre]
  · intro s p n h
    unfold regexSearch at h
    obtain ⟨k, hp, hm⟩ := searchFrom_spec s.data none 0 p n h
    have hk : k = p := by omega
    subst hk
    obtain ⟨g1, g2, g3⟩ := matchAt_goodRun hm
    refine ⟨g1, g2, ?_⟩
    rw [← List.drop_drop]
    exact g3

/-- C9 witness: the all-succeeding session on the message
"https://youtu.be/abc" hands exactly that string to the engine. -/
theorem c9_url_match_witness :
    Event.download "https://youtu.be/abc" ∈ (handle_message envBase).1 :=
  c9_url_match.2.1 envBase "https://youtu.be/abc" rfl rfl (by decide) rfl rfl
